import Mathlib

/-!
Shallow embedding of `src/app.py` (CONSAR-TRASPASOS dashboard).

The program is a linear pipeline: load one sheet of a spreadsheet into a
record table, filter its rows by a selected category, describe the numeric
column, fit one of two time-series models (SARIMA / Holt-Winters) and
project 36 monthly points, and concatenate history with the projection.

Library calls are embedded by their documented semantics:
  * `pd.to_datetime(-, errors = coerce, format = %Y-%m-%d)` becomes a total
    parser returning `Option Date` (`none` = NaT);
  * `pd.date_range(start, periods=36, freq = MS)` becomes `dateRangeMS`;
  * `Series.describe()` becomes `describe` over exact rationals (the std
    entry is represented by its square, the sample variance, since the
    embedding is exact);
  * the statsmodels optimizers are abstracted as fit functions passed in as
    parameters, returning `Except FitError` (fit non-convergence raises);
  * `@st.cache_data` becomes an explicit association-list cache threaded
    through `cachedLoadData`, with a read counter recording actual reads.
-/

namespace ConsarTraspasos

/-- A calendar date as stored in the `Fecha` column: year, month (1..12)
and day (1..daysInMonth). -/
structure Date where
  year : Nat
  month : Nat
  day : Nat
deriving DecidableEq, Repr

/-- Absolute month index of a date (months since year 0), the quantity
that `freq = MS` stepping advances by one. -/
def Date.absMonth (d : Date) : Nat := d.year * 12 + (d.month - 1)

/-- The first day of the month with absolute index `a`. -/
def monthStart (a : Nat) : Date := ⟨a / 12, a % 12 + 1, 1⟩

/-- A date is well-formed when its month is in 1..12 and its day is ≥ 1. -/
def Date.Valid (d : Date) : Prop := 1 ≤ d.month ∧ d.month ≤ 12 ∧ 1 ≤ d.day

instance (d : Date) : Decidable d.Valid := by
  unfold Date.Valid
  infer_instance

/-- `pd.date_range(start, periods, freq = MS)`: `periods` successive
month-start dates; the anchor is `start` itself when `start` is the first
day of a month, and otherwise the first day of the following month. -/
def dateRangeMS (start : Date) (periods : Nat) : List Date :=
  (List.range periods).map
    (fun i => monthStart ((if start.day = 1 then start.absMonth else start.absMonth + 1) + i))

theorem dateRangeMS_length (start : Date) (periods : Nat) :
    (dateRangeMS start periods).length = periods := by
  simp [dateRangeMS]

theorem monthStart_absMonth (a : Nat) : (monthStart a).absMonth = a := by
  simp [monthStart, Date.absMonth]
  omega

theorem chain'_range_succ_nat (n : Nat) :
    (List.range n).Chain' (fun a b : Nat => a + 1 = b) := by
  induction n with
  | zero => simp
  | succ k ih =>
    rw [List.range_succ]
    apply List.Chain'.append ih (by simp)
    intro x hx y hy
    simp at hy
    subst hy
    rcases k with _ | k
    · simp at hx
    · rw [List.getLast?_range] at hx
      simp at hx
      omega

/-- Consecutive entries of a month-start range are exactly one month apart. -/
theorem dateRangeMS_chain (start : Date) (periods : Nat) :
    (dateRangeMS start periods).Chain' (fun a b => a.absMonth + 1 = b.absMonth) := by
  unfold dateRangeMS
  rw [List.chain'_map]
  have h := chain'_range_succ_nat periods
  apply h.imp
  intro a b hab
  simp [monthStart_absMonth]
  omega

/-- One row of the record table after loading: `Fecha` (NaT = `none`),
`Descripción del Concepto` (a missing cell, pandas NaN, = `none`) and the
numeric `Datos` value, kept exact as a rational. -/
structure Row where
  fecha : Option Date
  descripcion : Option String
  datos : ℚ
deriving DecidableEq, Repr

/-! ### Loader: `pd.to_datetime(df[Fecha], errors = coerce, format = %Y-%m-%d)` -/

/-- Split a character list at `-` separators (the separators of the
`%Y-%m-%d` pattern). -/
def splitDash : List Char → List (List Char)
  | [] => [[]]
  | c :: cs =>
    if c = '-' then [] :: splitDash cs
    else
      match splitDash cs with
      | [] => [[c]]
      | p :: ps => (c :: p) :: ps

/-- Read a field of 1 to `w` decimal digits as a number (the behaviour of
the `strptime` directives `%Y` with `w = 4` and `%m`, `%d` with `w = 2`). -/
def digitsField (w : Nat) (cs : List Char) : Option Nat :=
  if 1 ≤ cs.length ∧ cs.length ≤ w ∧ cs.all Char.isDigit then
    some (cs.foldl (fun a c => a * 10 + (c.toNat - 48)) 0)
  else none

/-- How many days each month has (pandas validates day-of-month when a
format is given, Gregorian leap rule for February). -/
def daysInMonth (y m : Nat) : Nat :=
  if m = 2 then (if y % 4 = 0 ∧ (y % 100 ≠ 0 ∨ y % 400 = 0) then 29 else 28)
  else if m = 4 ∨ m = 6 ∨ m = 9 ∨ m = 11 then 30 else 31

/-- Parse one textual cell with the pattern `%Y-%m-%d`; any cell that does
not match, or names an impossible calendar date, yields `none` (NaT under
`errors = coerce`) instead of an error. -/
def parseDateISO (s : String) : Option Date :=
  match splitDash s.toList with
  | [ys, ms, ds] =>
    match digitsField 4 ys, digitsField 2 ms, digitsField 2 ds with
    | some y, some m, some d =>
      if 1 ≤ m ∧ m ≤ 12 ∧ 1 ≤ d ∧ d ≤ daysInMonth y m then some ⟨y, m, d⟩
      else none
    | _, _, _ => none
  | _ => none

/-- The `Fecha` column as it arrives from `read_excel`: either textual or
already date-typed (with NaT markers). -/
inductive FechaColumn where
  | text (vals : List String)
  | dates (vals : List (Option Date))
deriving DecidableEq, Repr

/-- Number of cells in the column. -/
def FechaColumn.size : FechaColumn → Nat
  | .text vals => vals.length
  | .dates vals => vals.length

/-- Lines 22-23 of `app.py`: if the `Fecha` column is string-typed it is
converted cell-wise with `pd.to_datetime(-, errors = coerce,
format = %Y-%m-%d)`; otherwise it is left untouched. -/
def convertFecha : FechaColumn → FechaColumn
  | .text vals => .dates (vals.map parseDateISO)
  | .dates vals => .dates vals

/-! ### Loader memoization: `@st.cache_data` on `load_data` -/

/-- The raw content `pd.read_excel` yields for one sheet, before the
`Fecha` conversion. -/
structure RawSheet where
  fecha : FechaColumn
  descripcion : List (Option String)
  datos : List ℚ
deriving DecidableEq, Repr

/-- A loaded record table (the value `load_data` returns). -/
structure Table where
  fecha : FechaColumn
  descripcion : List (Option String)
  datos : List ℚ
deriving DecidableEq, Repr

/-- Body of `load_data` (lines 18-25): read the sheet, convert the `Fecha`
column when textual, return the frame. `readSheet` stands for
`pd.read_excel` on the fixed file contents. -/
def load_data (readSheet : String → String → RawSheet) (path sheet : String) : Table :=
  let raw := readSheet path sheet
  ⟨convertFecha raw.fecha, raw.descripcion, raw.datos⟩

/-- The process-wide `st.cache_data` state: the memo table keyed on the
argument pair, plus a counter of the underlying sheet reads performed. -/
structure CacheState where
  memo : List ((String × String) × Table)
  reads : Nat
deriving DecidableEq, Repr

/-- Look a key up in the memo table. -/
def memoLookup : List ((String × String) × Table) → String × String → Option Table
  | [], _ => none
  | (k, t) :: rest, key => if k = key then some t else memoLookup rest key

/-- `load_data` as invoked through `@st.cache_data`: on a hit the memoized
table is returned and nothing is read; on a miss the body runs once and
the result is memoized. -/
def cachedLoadData (readSheet : String → String → RawSheet) (path sheet : String)
    (st : CacheState) : Table × CacheState :=
  match memoLookup st.memo (path, sheet) with
  | some t => (t, st)
  | none =>
    let t := load_data readSheet path sheet
    (t, ⟨((path, sheet), t) :: st.memo, st.reads + 1⟩)

/-! ### Filter: `df[df[Descripción del Concepto] == concepto]` -/

/-- pandas elementwise equality used by the boolean mask: two present
string cells compare by exact, case-sensitive equality; a missing cell
(NaN) compares unequal to everything, including another NaN. -/
def pandasEq (cell target : Option String) : Bool :=
  match cell, target with
  | some a, some b => a = b
  | _, _ => false

/-- Line 63 of `app.py`: keep the rows whose category cell equals the
selected concepto under the pandas mask semantics. -/
def filterConcepto (df : List Row) (concepto : Option String) : List Row :=
  df.filter (fun r => pandasEq r.descripcion concepto)

/-- Line 61 of `app.py`: the options offered by the selectbox are
`df[Descripción del Concepto].unique()` — the distinct cell values
present in the column, missing markers included. -/
def uniqueConceptos (df : List Row) : List (Option String) :=
  (df.map Row.descripcion).dedup

/-! ### Statistics summarizer: `filtered_df[Datos].describe()` -/

/-- The eight entries of `Series.describe()`. The std entry is represented
by its square (the ddof=1 sample variance), since the embedding works in
exact rationals; the reported std is its nonnegative square root. -/
structure DescribeResult where
  count : Nat
  mean : ℚ
  sampleVar : ℚ
  min : ℚ
  q25 : ℚ
  q50 : ℚ
  q75 : ℚ
  max : ℚ
deriving DecidableEq, Repr

/-- The numpy linear-interpolation quantile on an already sorted list: the
value at fractional position `p * (n - 1)`. -/
def quantileLinear (s : List ℚ) (p : ℚ) : ℚ :=
  let n := s.length
  let h : ℚ := p * ((n : ℚ) - 1)
  let i : Nat := (⌊h⌋).toNat
  let lo := s.getD i 0
  let hi := s.getD (min (i + 1) (n - 1)) 0
  lo + (h - (i : ℚ)) * (hi - lo)

/-- Line 71 of `app.py`: count, mean, std (sample, here via its square),
min, the three quartiles under linear interpolation, and max. -/
def describe (l : List ℚ) : DescribeResult :=
  let n := l.length
  let s := l.insertionSort (· ≤ ·)
  let mean := l.sum / (n : ℚ)
  let sv := (l.map (fun x => (x - mean) ^ 2)).sum / ((n : ℚ) - 1)
  ⟨n, mean, sv, s.headD 0,
    quantileLinear s (1 / 4), quantileLinear s (1 / 2), quantileLinear s (3 / 4),
    s.getLastD 0⟩

/-! ### Forecaster: lines 86-127 of `app.py` -/

/-- Failure of a statsmodels fit (non-convergence, degenerate input). -/
inductive FitError where
  | fitFailure (msg : String)
deriving DecidableEq, Repr

/-- The hardcoded SARIMAX constructor arguments of line 92. -/
structure SarimaSettings where
  order : Nat × Nat × Nat
  seasonalOrder : Nat × Nat × Nat × Nat
deriving DecidableEq, Repr

/-- The hardcoded ExponentialSmoothing constructor arguments of line 114. -/
structure HoltWintersSettings where
  seasonalPeriods : Nat
  trend : String
  seasonal : String
deriving DecidableEq, Repr

/-- A fitted model, abstracted as the map from forecast step index to
predicted mean; `get_forecast(steps=36).predicted_mean` and `forecast(36)`
read its first 36 values. -/
def FittedModel : Type := Nat → ℚ

/-- Lines 96-103 / 117-124: the future frame pairs
`pd.date_range(dates.iloc[-1], periods=36, freq = MS)` with the 36
predicted values. -/
def futureFrame (pred : FittedModel) (lastDate : Date) : List (Date × ℚ) :=
  (dateRangeMS lastDate 36).zip ((List.range 36).map pred)

/-- The SARIMA branch (lines 86-106): fit with order (1,1,1) and seasonal
order (1,1,1,12) — `fit` abstracts the library optimizer and may fail —
then build the 36-row future frame from the last historical date. -/
def sarimaBranch (fit : List ℚ → SarimaSettings → Except FitError FittedModel)
    (data : List ℚ) (lastDate : Date) : Except FitError (List (Date × ℚ)) :=
  match fit data ⟨(1, 1, 1), (1, 1, 1, 12)⟩ with
  | .error e => .error e
  | .ok pred => .ok (futureFrame pred lastDate)

/-- The Suavizado Exponencial branch (lines 108-127): fit Holt-Winters with
seasonal period 12, additive trend and additive seasonality, then build
the 36-row future frame from the last historical date. -/
def holtWintersBranch (fit : List ℚ → HoltWintersSettings → Except FitError FittedModel)
    (data : List ℚ) (lastDate : Date) : Except FitError (List (Date × ℚ)) :=
  match fit data ⟨12, "add", "add"⟩ with
  | .error e => .error e
  | .ok pred => .ok (futureFrame pred lastDate)

/-! ### Combiner and pipeline: lines 69-147 of `app.py` -/

/-- Line 130: `pd.concat([filtered_df[[Fecha, Datos]], future_df])` — the
historical (Fecha, Datos) rows in their original order followed by the 36
future rows, with no overlap check and no blending. -/
def combineFrames (filtered : List Row) (future : List (Date × ℚ)) :
    List (Option Date × ℚ) :=
  filtered.map (fun r => (r.fecha, r.datos)) ++ future.map (fun p => (some p.1, p.2))

/-- What the nonempty branch renders: the statistics table, the forecast
frame and the combined frame. -/
structure PipelineDisplays where
  stats : DescribeResult
  future : List (Date × ℚ)
  combined : List (Option Date × ℚ)
deriving DecidableEq, Repr

/-- What one interaction displays: either the no-data notice of line 147
for the selected concepto, or the displays of the nonempty branch. -/
inductive PipelineOutput where
  | noData (concepto : Option String)
  | displayed (d : PipelineDisplays)
deriving DecidableEq, Repr

/-- Lines 63-147 of `main`: filter by the selected concepto; when the
result is empty, emit only the no-data notice; otherwise describe the
Datos column, run the selected forecast (whose failure propagates as an
uncaught exception) and combine. `forecast` stands for the model branch
chosen by the selectbox. -/
def runPipeline (df : List Row) (concepto : Option String)
    (forecast : List Row → Except FitError (List (Date × ℚ))) :
    Except FitError PipelineOutput :=
  let filtered := filterConcepto df concepto
  if filtered.isEmpty then .ok (.noData concepto)
  else
    match forecast filtered with
    | .error e => .error e
    | .ok future =>
      .ok (.displayed ⟨describe (filtered.map Row.datos), future,
        combineFrames filtered future⟩)

/-! ### Helper lemmas -/

theorem pandasEq_some_iff (cell : Option String) (c : String) :
    pandasEq cell (some c) = true ↔ cell = some c := by
  cases cell <;> simp [pandasEq]

theorem memoLookup_head (m : List ((String × String) × Table)) (k : String × String)
    (t : Table) : memoLookup ((k, t) :: m) k = some t := by
  simp [memoLookup]

/-! ### Claim theorems -/

/-- C3: the filter keeps exactly the rows whose category cell equals the
target string, under exact, case-sensitive equality with no trimming; and
when no row carries the target value the result is the empty table (the
filter is total — there is no error case). -/
theorem C3_filter_exact (df : List Row) (c : String) :
    (∀ r : Row, r ∈ filterConcepto df (some c) ↔ r ∈ df ∧ r.descripcion = some c) ∧
    ((∀ r ∈ df, r.descripcion ≠ some c) → filterConcepto df (some c) = []) := by
  constructor
  · intro r
    simp [filterConcepto, List.mem_filter, pandasEq_some_iff]
  · intro habsent
    simp only [filterConcepto, List.filter_eq_nil_iff]
    intro r hr
    simp [pandasEq_some_iff]
    exact habsent r hr

/-- C3 witness: on a concrete two-row table, filtering by a present value
keeps exactly the matching row and filtering by an absent value is empty. -/
theorem C3_filter_exact_witness :
    (⟨none, some "RECIBIDOS", 1⟩ : Row) ∈
      filterConcepto [⟨none, some "RECIBIDOS", 1⟩, ⟨none, some "CEDIDOS", 2⟩]
        (some "RECIBIDOS") ∧
    filterConcepto [⟨none, some "RECIBIDOS", 1⟩, ⟨none, some "CEDIDOS", 2⟩]
      (some "recibidos") = [] := by
  have h1 := C3_filter_exact [⟨none, some "RECIBIDOS", 1⟩, ⟨none, some "CEDIDOS", 2⟩]
    "RECIBIDOS"
  have h2 := C3_filter_exact [⟨none, some "RECIBIDOS", 1⟩, ⟨none, some "CEDIDOS", 2⟩]
    "recibidos"
  refine ⟨(h1.1 _).2 ⟨by simp, rfl⟩, h2.2 ?_⟩
  intro r hr
  simp at hr
  rcases hr with h | h <;> simp [h]

/-- C2: the combiner output has length N + 36, its first N rows are the
filtered series restricted to the Fecha and Datos columns in order, and
its last 36 rows are the forecast series — plain concatenation, no overlap
check, no blending. -/
theorem C2_combiner (filtered : List Row) (future : List (Date × ℚ))
    (hne : filtered ≠ []) (hlen : future.length = 36) :
    (combineFrames filtered future).length = filtered.length + 36 ∧
    (combineFrames filtered future).take filtered.length
      = filtered.map (fun r => (r.fecha, r.datos)) ∧
    (combineFrames filtered future).drop filtered.length
      = future.map (fun p => (some p.1, p.2)) := by
  refine ⟨?_, ?_, ?_⟩
  · simp [combineFrames, hlen]
  · rw [combineFrames, List.take_left' (by simp)]
  · rw [combineFrames, List.drop_left' (by simp)]

/-- C2 witness: a one-row history combined with a 36-row forecast. -/
theorem C2_combiner_witness :
    (combineFrames [⟨some ⟨2024, 1, 1⟩, some "RECIBIDOS", 7⟩]
        ((List.range 36).map (fun i => (monthStart i, (0 : ℚ))))).length
      = [(⟨some ⟨2024, 1, 1⟩, some "RECIBIDOS", 7⟩ : Row)].length + 36 := by
  have h := C2_combiner [⟨some ⟨2024, 1, 1⟩, some "RECIBIDOS", 7⟩]
    ((List.range 36).map (fun i => (monthStart i, (0 : ℚ)))) (by simp) (by simp)
  exact h.1

/-- C5: calling the memoized loader twice with the same (path, sheet)
returns equal record tables, and the second call performs no additional
sheet read — it returns the memoized result. -/
theorem C5_cache_idempotent (readSheet : String → String → RawSheet)
    (path sheet : String) (st0 : CacheState) :
    (cachedLoadData readSheet path sheet
        (cachedLoadData readSheet path sheet st0).2).1
      = (cachedLoadData readSheet path sheet st0).1 ∧
    (cachedLoadData readSheet path sheet
        (cachedLoadData readSheet path sheet st0).2).2.reads
      = (cachedLoadData readSheet path sheet st0).2.reads := by
  unfold cachedLoadData
  cases h : memoLookup st0.memo (path, sheet) with
  | some t => simp [h]
  | none => simp [h, memoLookup_head]

/-- C7: when the filtered table is empty the pipeline emits only the
no-data notice (no statistics, no forecast, no combiner run — the output
carries none of them) and does not fail; when it is nonempty and the fit
succeeds, the output carries the descriptive statistics of the Datos
column, the forecast and the combined frame. -/
theorem C7_empty_guard (df : List Row) (concepto : Option String)
    (forecast : List Row → Except FitError (List (Date × ℚ))) :
    (filterConcepto df concepto = [] →
      runPipeline df concepto forecast = .ok (.noData concepto)) ∧
    (filterConcepto df concepto ≠ [] →
      ∀ future, forecast (filterConcepto df concepto) = .ok future →
        runPipeline df concepto forecast =
          .ok (.displayed ⟨describe ((filterConcepto df concepto).map Row.datos), future,
            combineFrames (filterConcepto df concepto) future⟩)) := by
  constructor
  · intro hempty
    simp [runPipeline, hempty]
  · intro hne future hfit
    simp [runPipeline, List.isEmpty_iff, hne, hfit]

/-- C7 witness: on a concrete table, the absent category reaches the
no-data notice and the present one reaches the displayed results. -/
theorem C7_empty_guard_witness :
    runPipeline [⟨none, some "RECIBIDOS", 1⟩] (some "CEDIDOS") (fun _ => .ok [])
      = .ok (.noData (some "CEDIDOS")) ∧
    runPipeline [⟨none, some "RECIBIDOS", 1⟩] (some "RECIBIDOS") (fun _ => .ok [])
      = .ok (.displayed ⟨describe [1], [],
          combineFrames (filterConcepto [⟨none, some "RECIBIDOS", 1⟩]
            (some "RECIBIDOS")) []⟩) := by
  constructor
  · exact (C7_empty_guard [⟨none, some "RECIBIDOS", 1⟩] (some "CEDIDOS")
      (fun _ => .ok [])).1 (by simp [filterConcepto, pandasEq])
  · have h := (C7_empty_guard [⟨none, some "RECIBIDOS", 1⟩] (some "RECIBIDOS")
      (fun _ => .ok [])).2 (by simp [filterConcepto, pandasEq]) [] rfl
    simpa [filterConcepto, pandasEq] using h

theorem sorted_headD_le (l : List ℚ) (hs : l.Sorted (· ≤ ·)) :
    ∀ x ∈ l, l.headD 0 ≤ x := by
  cases l with
  | nil => simp
  | cons a t =>
    intro x hx
    rcases List.mem_cons.mp hx with h | h
    · simp [h]
    · simpa using List.rel_of_sorted_cons hs x h

theorem sorted_le_getLastD (l : List ℚ) (hs : l.Sorted (· ≤ ·)) :
    ∀ x ∈ l, x ≤ l.getLastD 0 := by
  induction l with
  | nil => simp
  | cons a t ih =>
    intro x hx
    cases t with
    | nil =>
      simp at hx
      simp [hx]
    | cons b u =>
      have hlast : (a :: b :: u).getLastD 0 = (b :: u).getLastD 0 := by
        simp [List.getLastD_eq_getLast?, List.getLast?]
      rw [hlast]
      rcases List.mem_cons.mp hx with h | h
      · subst h
        have hxb : x ≤ b := List.rel_of_sorted_cons hs b (by simp)
        exact le_trans hxb (ih hs.of_cons b (by simp))
      · exact ih hs.of_cons x h

theorem headD_mem (l : List ℚ) (hne : l ≠ []) : l.headD 0 ∈ l := by
  cases l with
  | nil => exact absurd rfl hne
  | cons a t => simp

theorem getLastD_mem (l : List ℚ) (hne : l ≠ []) : l.getLastD 0 ∈ l := by
  rw [List.getLastD_eq_getLast?, List.getLast?_eq_getLast l hne]
  simp [List.getLast_mem]

/-- C6: over every non-empty numeric column, `describe` reports the count,
the arithmetic mean, the sample (ddof = 1) variance — the square of the
reported standard deviation — and a minimum and maximum that belong to the
column and bound every value; on the concrete column [1, 2, 3, 4, 5] it
yields count = 5, mean = 3, min = 1, quartiles 2, 3, 4, and max = 5. -/
theorem C6_describe (l : List ℚ) (hl : l ≠ []) :
    (describe l).count = l.length ∧
    (describe l).mean = l.sum / (l.length : ℚ) ∧
    (describe l).sampleVar
      = (l.map (fun x => (x - l.sum / (l.length : ℚ)) ^ 2)).sum / ((l.length : ℚ) - 1) ∧
    (describe l).min ∈ l ∧ (∀ x ∈ l, (describe l).min ≤ x) ∧
    (describe l).max ∈ l ∧ (∀ x ∈ l, x ≤ (describe l).max) ∧
    describe [1, 2, 3, 4, 5] = ⟨5, 3, 5 / 2, 1, 2, 3, 4, 5⟩ := by
  have hperm := List.perm_insertionSort (α := ℚ) (· ≤ ·) l
  have hsort := List.sorted_insertionSort (α := ℚ) (· ≤ ·) l
  have hsne : l.insertionSort (· ≤ ·) ≠ [] := by
    intro h
    exact hl ((h ▸ hperm).symm.eq_nil)
  refine ⟨rfl, rfl, rfl, ?_, ?_, ?_, ?_, ?_⟩
  · exact hperm.mem_iff.mp (headD_mem _ hsne)
  · intro x hx
    exact sorted_headD_le _ hsort x (hperm.mem_iff.mpr hx)
  · exact hperm.mem_iff.mp (getLastD_mem _ hsne)
  · intro x hx
    exact sorted_le_getLastD _ hsort x (hperm.mem_iff.mpr hx)
  · norm_num [describe, quantileLinear, List.insertionSort, List.orderedInsert]
    norm_num [show Int.toNat 2 = 2 from rfl, show Int.toNat 3 = 3 from rfl]

/-- C6 witness: the statistics of the concrete column [1, 2, 3, 4, 5]. -/
theorem C6_describe_witness :
    (describe [1, 2, 3, 4, 5]).count = 5 ∧ (describe [1, 2, 3, 4, 5]).min = 1 ∧
    (describe [1, 2, 3, 4, 5]).max = 5 ∧ (describe [1, 2, 3, 4, 5]).mean = 3 := by
  have h := C6_describe [1, 2, 3, 4, 5] (by simp)
  rw [h.2.2.2.2.2.2.2]
  exact ⟨rfl, rfl, rfl, rfl⟩

/-- C4: a textual date column is converted cell-wise by the %Y-%m-%d
parser, totally — a non-matching cell becomes the null marker `none`
rather than an error; a column already in date form is left unconverted;
conversion preserves the column length; every date the parser does accept
is a well-formed calendar date; and on concrete cells a matching value
parses, while a non-date string and an impossible calendar date coerce to
`none`. -/
theorem C4_fecha_coercion :
    (∀ ss : List String, convertFecha (.text ss) = .dates (ss.map parseDateISO)) ∧
    (∀ vs : List (Option Date), convertFecha (.dates vs) = .dates vs) ∧
    (∀ c : FechaColumn, (convertFecha c).size = c.size) ∧
    (∀ (s : String) (d : Date), parseDateISO s = some d →
      1 ≤ d.month ∧ d.month ≤ 12 ∧ 1 ≤ d.day ∧ d.day ≤ daysInMonth d.year d.month) ∧
    parseDateISO "2024-07-15" = some ⟨2024, 7, 15⟩ ∧
    parseDateISO "2024-02-30" = none ∧
    parseDateISO "not a date" = none := by
  refine ⟨fun ss => rfl, fun vs => rfl, ?_, ?_, by decide, by decide, by decide⟩
  · intro c
    cases c <;> simp [convertFecha, FechaColumn.size]
  · intro s d h
    unfold parseDateISO at h
    split at h
    · split at h
      · split at h
        · cases h
          next hcond => simpa using hcond
        · exact absurd h (by simp)
      · exact absurd h (by simp)
    · exact absurd h (by simp)

/-- C4 witness: the parser accepts 2024-07-15 and the accepted date is
well-formed. -/
theorem C4_fecha_coercion_witness :
    1 ≤ (⟨2024, 7, 15⟩ : Date).month ∧ (⟨2024, 7, 15⟩ : Date).month ≤ 12 ∧
    1 ≤ (⟨2024, 7, 15⟩ : Date).day ∧
    (⟨2024, 7, 15⟩ : Date).day ≤ daysInMonth (⟨2024, 7, 15⟩ : Date).year
      (⟨2024, 7, 15⟩ : Date).month :=
  C4_fecha_coercion.2.2.2.1 "2024-07-15" ⟨2024, 7, 15⟩ (by decide)

theorem futureFrame_fst (pred : FittedModel) (lastDate : Date) :
    (futureFrame pred lastDate).map Prod.fst = dateRangeMS lastDate 36 := by
  unfold futureFrame
  apply List.map_fst_zip
  simp [dateRangeMS_length]

theorem futureFrame_length (pred : FittedModel) (lastDate : Date) :
    (futureFrame pred lastDate).length = 36 := by
  simp [futureFrame, dateRangeMS_length]

theorem dateRangeMS_head? (start : Date) (n : Nat) (hn : 0 < n) :
    (dateRangeMS start n).head?
      = some (monthStart
          (if start.day = 1 then start.absMonth else start.absMonth + 1)) := by
  unfold dateRangeMS
  cases n with
  | zero => omega
  | succ k =>
    rw [List.range_succ_eq_map]
    simp

theorem monthStart_absMonth_self (d : Date) (hv : d.Valid) (hday : d.day = 1) :
    monthStart d.absMonth = d := by
  obtain ⟨y, m, day⟩ := d
  obtain ⟨h1, h2, _⟩ := hv
  simp only [monthStart, Date.absMonth, Date.mk.injEq] at *
  subst hday
  refine ⟨?_, ?_, rfl⟩ <;> omega

/-- C1 counterexample: a well-formed, strictly monthly 24-point series
whose dates fall on the 15th of each month, ending at 2023-12-15. With
any successful fit (here a stub), the SARIMA branch starts its forecast
at 2024-01-01 — the first of the month following the last historical
date — not at the last historical date itself, because pd.date_range
with freq = MS anchors at the next month start. -/
theorem C1_counterexample :
    ((List.range 24).map (fun i => (⟨2022 + i / 12, i % 12 + 1, 15⟩ : Date))).length
      = 24 ∧
    ((List.range 24).map (fun i => (⟨2022 + i / 12, i % 12 + 1, 15⟩ : Date))).Chain'
      (fun a b => a.absMonth + 1 = b.absMonth) ∧
    ((List.range 24).map (fun i => (⟨2022 + i / 12, i % 12 + 1, 15⟩ : Date))).getLast?
      = some ⟨2023, 12, 15⟩ ∧
    sarimaBranch (fun _ _ => .ok (fun _ => 0)) (List.replicate 24 1) ⟨2023, 12, 15⟩
      = .ok (futureFrame (fun _ => 0) ⟨2023, 12, 15⟩) ∧
    (futureFrame (fun _ => 0) ⟨2023, 12, 15⟩).head?.map Prod.fst = some ⟨2024, 1, 1⟩ ∧
    (⟨2024, 1, 1⟩ : Date) ≠ ⟨2023, 12, 15⟩ := by
  refine ⟨by decide, ?_, by decide, rfl, by decide, by decide⟩
  rw [List.chain'_map]
  apply (chain'_range_succ_nat 24).imp
  intro a b hab
  simp only [Date.absMonth]
  omega

/-- C1 (amended): whenever the fit succeeds, each forecaster branch
returns exactly 36 (date, value) pairs whose dates are strictly
increasing, consecutive month starts; the first forecast date equals the
last historical date when that date is the first day of a month, and is
otherwise the first day of the month following it. -/
theorem C1_amended
    (sfit : List ℚ → SarimaSettings → Except FitError FittedModel)
    (hfit : List ℚ → HoltWintersSettings → Except FitError FittedModel)
    (data : List ℚ) (lastDate : Date) (hv : lastDate.Valid)
    (spred hpred : FittedModel)
    (hs : sfit data ⟨(1, 1, 1), (1, 1, 1, 12)⟩ = .ok spred)
    (hh : hfit data ⟨12, "add", "add"⟩ = .ok hpred) :
    sarimaBranch sfit data lastDate = .ok (futureFrame spred lastDate) ∧
    holtWintersBranch hfit data lastDate = .ok (futureFrame hpred lastDate) ∧
    (∀ pred : FittedModel,
      (futureFrame pred lastDate).length = 36 ∧
      ((futureFrame pred lastDate).map Prod.fst).Chain'
        (fun a b => a.absMonth + 1 = b.absMonth) ∧
      (futureFrame pred lastDate).head?.map Prod.fst
        = some (if lastDate.day = 1 then lastDate
            else monthStart (lastDate.absMonth + 1))) := by
  refine ⟨?_, ?_, ?_⟩
  · unfold sarimaBranch
    rw [hs]
  · unfold holtWintersBranch
    rw [hh]
  intro pred
  refine ⟨futureFrame_length pred lastDate, ?_, ?_⟩
  · rw [futureFrame_fst]
    exact dateRangeMS_chain lastDate 36
  · rw [← List.head?_map, futureFrame_fst, dateRangeMS_head? lastDate 36 (by omega)]
    by_cases hday : lastDate.day = 1
    · simp [hday, monthStart_absMonth_self lastDate hv hday]
    · simp [hday]

/-- C1 witness: the amended statement at a month-start last date and stub
fits — the first forecast date is then the last historical date itself. -/
theorem C1_amended_witness :
    sarimaBranch (fun _ _ => .ok (fun _ => 0)) [1, 2] ⟨2024, 1, 1⟩
      = .ok (futureFrame (fun _ => 0) ⟨2024, 1, 1⟩) ∧
    (futureFrame (fun _ => 0) ⟨2024, 1, 1⟩).length = 36 ∧
    (futureFrame (fun _ => 0) ⟨2024, 1, 1⟩).head?.map Prod.fst
      = some (if (⟨2024, 1, 1⟩ : Date).day = 1 then (⟨2024, 1, 1⟩ : Date)
          else monthStart ((⟨2024, 1, 1⟩ : Date).absMonth + 1)) := by
  have h := C1_amended (fun _ _ => .ok (fun _ => 0)) (fun _ _ => .ok (fun _ => 0))
    [1, 2] ⟨2024, 1, 1⟩ (by decide) (fun _ => 0) (fun _ => 0) rfl rfl
  exact ⟨h.1, (h.2.2 (fun _ => 0)).1, (h.2.2 (fun _ => 0)).2.2⟩

/-- C8: on a series of fewer than 24 points, each forecaster branch either
fails with a FitError or returns exactly 36 forecast points — it can never
return fewer than 36 points, since the step count 36 is hardcoded. -/
theorem C8_short_series
    (sfit : List ℚ → SarimaSettings → Except FitError FittedModel)
    (hfit : List ℚ → HoltWintersSettings → Except FitError FittedModel)
    (data : List ℚ) (lastDate : Date) (hshort : data.length < 24) :
    ((∃ e, sarimaBranch sfit data lastDate = .error e) ∨
      (∃ future, sarimaBranch sfit data lastDate = .ok future ∧ future.length = 36)) ∧
    ((∃ e, holtWintersBranch hfit data lastDate = .error e) ∨
      (∃ future, holtWintersBranch hfit data lastDate = .ok future ∧
        future.length = 36)) := by
  constructor
  · unfold sarimaBranch
    cases sfit data ⟨(1, 1, 1), (1, 1, 1, 12)⟩ with
    | error e => exact .inl ⟨e, rfl⟩
    | ok pred => exact .inr ⟨futureFrame pred lastDate, rfl, futureFrame_length pred lastDate⟩
  · unfold holtWintersBranch
    cases hfit data ⟨12, "add", "add"⟩ with
    | error e => exact .inl ⟨e, rfl⟩
    | ok pred => exact .inr ⟨futureFrame pred lastDate, rfl, futureFrame_length pred lastDate⟩

/-- C8 witness: a 3-point series, one branch with a succeeding stub fit
and one with a failing one. -/
theorem C8_short_series_witness :
    ((∃ e, sarimaBranch (fun _ _ => .ok (fun _ => 0)) [1, 2, 3] ⟨2024, 1, 1⟩
        = .error e) ∨
      (∃ future, sarimaBranch (fun _ _ => .ok (fun _ => 0)) [1, 2, 3] ⟨2024, 1, 1⟩
          = .ok future ∧ future.length = 36)) ∧
    ((∃ e, holtWintersBranch (fun _ _ => .error (.fitFailure "no convergence"))
          [1, 2, 3] ⟨2024, 1, 1⟩ = .error e) ∨
      (∃ future, holtWintersBranch (fun _ _ => .error (.fitFailure "no convergence"))
          [1, 2, 3] ⟨2024, 1, 1⟩ = .ok future ∧ future.length = 36)) :=
  C8_short_series (fun _ _ => .ok (fun _ => 0))
    (fun _ _ => .error (.fitFailure "no convergence")) [1, 2, 3] ⟨2024, 1, 1⟩ (by simp)

/-- C9: each forecaster branch is a function of the input series and the
hardcoded optimizer settings alone: two runs whose fits agree at the
series and the fixed settings — in particular two runs of the same
deterministic fit — produce identical forecast output, for both variants. -/
theorem C9_determinism
    (sfit1 sfit2 : List ℚ → SarimaSettings → Except FitError FittedModel)
    (hfit1 hfit2 : List ℚ → HoltWintersSettings → Except FitError FittedModel)
    (data : List ℚ) (lastDate : Date)
    (hs : sfit1 data ⟨(1, 1, 1), (1, 1, 1, 12)⟩ = sfit2 data ⟨(1, 1, 1), (1, 1, 1, 12)⟩)
    (hh : hfit1 data ⟨12, "add", "add"⟩ = hfit2 data ⟨12, "add", "add"⟩) :
    sarimaBranch sfit1 data lastDate = sarimaBranch sfit2 data lastDate ∧
    holtWintersBranch hfit1 data lastDate = holtWintersBranch hfit2 data lastDate := by
  unfold sarimaBranch holtWintersBranch
  rw [hs, hh]
  exact ⟨rfl, rfl⟩

/-- C9 witness: two runs of the same fit on the same series coincide. -/
theorem C9_determinism_witness :
    sarimaBranch (fun _ _ => .ok (fun i => (i : ℚ))) [1, 2] ⟨2024, 1, 1⟩
      = sarimaBranch (fun _ _ => .ok (fun i => (i : ℚ))) [1, 2] ⟨2024, 1, 1⟩ :=
  (C9_determinism (fun _ _ => .ok (fun i => (i : ℚ))) (fun _ _ => .ok (fun i => (i : ℚ)))
    (fun _ _ => .ok (fun _ => 0)) (fun _ _ => .ok (fun _ => 0))
    [1, 2] ⟨2024, 1, 1⟩ rfl rfl).1

/-- C10 counterexample: a non-empty table whose single category cell is
missing (pandas NaN). The missing marker is among the unique values the
selectbox offers, yet selecting it filters to the empty table — NaN
compares unequal even to itself — so the pipeline reaches the no-data
notice: the branch is reachable. -/
theorem C10_counterexample :
    ([⟨some ⟨2024, 1, 1⟩, none, 5⟩] : List Row) ≠ [] ∧
    none ∈ uniqueConceptos [⟨some ⟨2024, 1, 1⟩, none, 5⟩] ∧
    filterConcepto [⟨some ⟨2024, 1, 1⟩, none, 5⟩] none = [] ∧
    runPipeline [⟨some ⟨2024, 1, 1⟩, none, 5⟩] none (fun _ => .ok [])
      = .ok (.noData none) := by
  refine ⟨by simp, by simp [uniqueConceptos], rfl, rfl⟩

/-- C10 (amended): in a non-empty table, every selection that is an actual
string value present in the category column yields a non-empty filtered
table, and for such selections the no-data branch is unreachable; the
branch stays reachable only through a missing (NaN) category cell, which
also appears among the selectable values. -/
theorem C10_amended (df : List Row) (hne : df ≠ []) :
    (∀ s : String, some s ∈ uniqueConceptos df → filterConcepto df (some s) ≠ []) ∧
    (∀ (s : String) (forecast : List Row → Except FitError (List (Date × ℚ))),
      some s ∈ uniqueConceptos df →
        runPipeline df (some s) forecast ≠ .ok (.noData (some s))) := by
  have hfilter : ∀ s : String, some s ∈ uniqueConceptos df →
      filterConcepto df (some s) ≠ [] := by
    intro s hmem
    rw [uniqueConceptos, List.mem_dedup] at hmem
    obtain ⟨r, hr, hrs⟩ := List.mem_map.mp hmem
    apply List.ne_nil_of_mem (a := r)
    simp only [filterConcepto, List.mem_filter]
    exact ⟨hr, by simp [pandasEq_some_iff, hrs]⟩
  refine ⟨hfilter, ?_⟩
  intro s forecast hmem heq
  have h := hfilter s hmem
  unfold runPipeline at heq
  rw [if_neg (by simpa [List.isEmpty_iff] using h)] at heq
  split at heq
  · exact absurd heq (by simp)
  · simp at heq

/-- C10 witness: on a concrete one-row table, the present category value
filters to a non-empty table. -/
theorem C10_amended_witness :
    filterConcepto [⟨none, some "RECIBIDOS", 1⟩] (some "RECIBIDOS") ≠ [] :=
  (C10_amended [⟨none, some "RECIBIDOS", 1⟩] (by simp)).1 "RECIBIDOS"
    (by simp [uniqueConceptos])

end ConsarTraspasos
